import Mathlib

/-!
# Verification of the hover controller, interactive-session bridge and
# screencast overlay settings

Shallow embedding of:
* `src/vs/workbench/api/browser/mainThreadInteractiveSession.ts`
  (`MainThreadInteractiveSession`): provider registration, progress-callback
  tracking, session preparation;
* `src/vs/editor/contrib/hover/browser/hover.ts` (`ModesHoverController`):
  the mouse-event driven hover-widget visibility state machine;
* `src/vs/workbench/browser/actions/developerActions.ts`
  (`ToggleScreencastModeAction`): defaulting and clamping of the scalar
  screencast settings.

JavaScript `Map` objects are embedded as association lists (`JsMap`), numbers
as `Nat`/`Int`, `undefined`/`null` as `Option`, thrown errors as `Except`,
and the asynchronous remote proxy as explicit outcome parameters.
-/

section JsMapDefs

variable {α β : Type} [DecidableEq α]

/-- Lookup in an association list: the value of the first entry whose key
matches, mirroring `Map.prototype.get`. -/
def lookupEntry : List (α × β) → α → Option β
  | [], _ => none
  | (k', v) :: rest, k => if k' = k then some v else lookupEntry rest k

/-- Update in an association list: replace the first entry whose key matches,
or append a fresh entry, mirroring `Map.prototype.set`. -/
def setEntry : List (α × β) → α → β → List (α × β)
  | [], k, v => [(k, v)]
  | (k', v') :: rest, k, v =>
    if k' = k then (k, v) :: rest else (k', v') :: setEntry rest k v

/-- Removal from an association list, mirroring `Map.prototype.delete`. -/
def deleteEntry : List (α × β) → α → List (α × β)
  | [], _ => []
  | (k', v') :: rest, k =>
    if k' = k then deleteEntry rest k else (k', v') :: deleteEntry rest k

end JsMapDefs

/-- A JavaScript `Map`, embedded as an association list of key/value entries. -/
structure JsMap (α β : Type) where
  entries : List (α × β)
deriving DecidableEq

namespace JsMap

variable {α β : Type} [DecidableEq α]

/-- Lookup, `Map.prototype.get`: `none` models `undefined`. -/
def get (m : JsMap α β) (k : α) : Option β := lookupEntry m.entries k

/-- Update, `Map.prototype.set`. -/
def set (m : JsMap α β) (k : α) (v : β) : JsMap α β := ⟨setEntry m.entries k v⟩

/-- Removal, `Map.prototype.delete` (also `DisposableMap.deleteAndDispose`). -/
def delete (m : JsMap α β) (k : α) : JsMap α β := ⟨deleteEntry m.entries k⟩

/-- Membership, `Map.prototype.has`. -/
def contains (m : JsMap α β) (k : α) : Bool := (m.get k).isSome

/-- The empty map, `new Map()`. -/
def empty : JsMap α β := ⟨[]⟩

theorem lookupEntry_deleteEntry_self (l : List (α × β)) (k : α) :
    lookupEntry (deleteEntry l k) k = none := by
  induction l with
  | nil => simp [deleteEntry, lookupEntry]
  | cons hd tl ih =>
    obtain ⟨k', v'⟩ := hd
    by_cases h : k' = k
    · simp [deleteEntry, h, ih]
    · simp [deleteEntry, lookupEntry, h, ih]

theorem get_delete_self (m : JsMap α β) (k : α) : (m.delete k).get k = none :=
  lookupEntry_deleteEntry_self m.entries k

theorem contains_delete_self (m : JsMap α β) (k : α) :
    (m.delete k).contains k = false := by
  simp [contains, get_delete_self]

theorem lookupEntry_setEntry_self (l : List (α × β)) (k : α) (v : β) :
    lookupEntry (setEntry l k v) k = some v := by
  induction l with
  | nil => simp [setEntry, lookupEntry]
  | cons hd tl ih =>
    obtain ⟨k', v'⟩ := hd
    by_cases h : k' = k
    · simp [setEntry, h, lookupEntry]
    · simp [setEntry, lookupEntry, h, ih]

theorem get_set_self (m : JsMap α β) (k : α) (v : β) :
    (m.set k v).get k = some v :=
  lookupEntry_setEntry_self m.entries k v

end JsMap

/-! ## Interactive-session bridge (`MainThreadInteractiveSession`)

The bridge keeps two maps: `_registrations : DisposableMap<number>` and
`_activeRequestProgressCallbacks : Map<string, (progress) => void>`.
Progress callbacks are functions; the embedding identifies each callback by
an opaque `Nat` identifier and records invocations as `(callback, payload)`
pairs instead of executing them. -/

/-- An incremental reply payload (`IInteractiveProgress`). -/
structure IInteractiveProgress where
  responsePart : String
deriving DecidableEq

/-- One entry of `IInteractiveSessionContributionService.registeredProviders`:
the statically declared provider contributions. -/
structure Contribution where
  id : String
  extensionIcon : Option String
deriving DecidableEq

/-- The mutable state of `MainThreadInteractiveSession`: the registration map
and the active-request progress-callback map. The `_inputRegistrations` map is
never touched by the operations under study and is omitted. -/
structure BridgeState where
  registrations : JsMap Nat Unit
  activeRequestProgressCallbacks : JsMap String Nat
deriving DecidableEq

/-- The composite key `` `${handle}_${request.session.id}` `` used by
`provideReply` and `$acceptInteractiveResponseProgress`. -/
def requestKey (handle sessionId : Nat) : String :=
  toString handle ++ "_" ++ toString sessionId

/-- Result of `$registerInteractiveSessionProvider`: the thrown error or the
updated state, together with the remote (`_proxy`) calls the operation itself
issues. Registration is host-local, so that list is empty on both paths; the
provider callbacks installed on success delegate to the proxy only when they
are invoked later. -/
structure RegisterOutcome where
  result : Except String BridgeState
  remoteCalls : List String

/-- Operation `$registerInteractiveSessionProvider(handle, id, implementsProgress)`:
looks `id` up in the static contribution list; when absent it throws before
doing anything else, otherwise it installs the provider and stores the
unregistration handle under `handle`. -/
def registerInteractiveSessionProvider (contribs : List Contribution)
    (st : BridgeState) (handle : Nat) (id : String) (implementsProgress : Bool) :
    RegisterOutcome :=
  match contribs.find? (fun staticProvider => staticProvider.id = id) with
  | none =>
    { result := .error ("Provider " ++ id ++ " must be declared in the package.json.")
      remoteCalls := [] }
  | some _ =>
    let _ := implementsProgress
    { result := .ok { st with registrations := st.registrations.set handle () }
      remoteCalls := [] }

/-- Operation `$unregisterInteractiveSessionProvider(handle)`:
`this._registrations.deleteAndDispose(handle)`. -/
def unregisterInteractiveSessionProvider (st : BridgeState) (handle : Nat) :
    BridgeState :=
  { st with registrations := st.registrations.delete handle }

/-- The first phase of `provideReply`: compute the composite key and register
the progress callback under it, before awaiting the remote call. -/
def provideReplyStart (st : BridgeState) (handle sessionId cb : Nat) :
    BridgeState :=
  { st with activeRequestProgressCallbacks :=
      st.activeRequestProgressCallbacks.set (requestKey handle sessionId) cb }

/-- How the awaited remote call `$provideInteractiveReply` settles: it either
resolves with a response DTO or rejects with an error. -/
inductive RemoteReplyOutcome where
  | resolved (dto : String)
  | rejected (err : String)
deriving DecidableEq

/-- The second phase of `provideReply`: the remote call has settled. The
`finally` block deletes the composite key unconditionally; a resolved outcome
becomes the returned response and a rejected one propagates to the caller. -/
def provideReplySettle (st : BridgeState) (handle sessionId : Nat)
    (outcome : RemoteReplyOutcome) : Except String String × BridgeState :=
  let st' := { st with activeRequestProgressCallbacks :=
      st.activeRequestProgressCallbacks.delete (requestKey handle sessionId) }
  match outcome with
  | .resolved dto => (.ok dto, st')
  | .rejected err => (.error err, st')

/-- Operation `$acceptInteractiveResponseProgress(handle, sessionId, progress)`:
`this._activeRequestProgressCallbacks.get(id)?.(progress)`. Returns the
(possibly empty) list of callback invocations the call performs, paired with
the unchanged state. -/
def acceptInteractiveResponseProgress (st : BridgeState) (handle sessionId : Nat)
    (progress : IInteractiveProgress) :
    BridgeState × List (Nat × IInteractiveProgress) :=
  match st.activeRequestProgressCallbacks.get (requestKey handle sessionId) with
  | some cb => (st, [(cb, progress)])
  | none => (st, [])

/-- The session DTO the remote `$prepareInteractiveSession` resolves with
(`undefined` fields are `none`; URIs are abstracted to strings). -/
structure SessionDto where
  id : Nat
  requesterUsername : Option String
  requesterAvatarIconUri : Option String
  responderUsername : Option String
  responderAvatarIconUri : Option String
deriving DecidableEq

/-- The `IInteractiveSession` object `prepareSession` hands to the session
service; `disposeReleasesSession` records the session id its `dispose` hook
passes to `$releaseSession`. -/
structure IInteractiveSession where
  id : Nat
  requesterUsername : String
  requesterAvatarIconUri : Option String
  responderUsername : String
  responderAvatarIconUri : Option String
  disposeReleasesSession : Nat
deriving DecidableEq

/-- The `prepareSession` callback installed by the bridge, as a function of the
remote `$prepareInteractiveSession` result. `none` from the remote yields
`undefined`; otherwise usernames default via `??` and a missing responder
avatar falls back to the contribution's `extensionIcon`. -/
def prepareSession (registrationIcon : Option String)
    (remote : Option SessionDto) : Option IInteractiveSession :=
  match remote with
  | none => none
  | some session =>
    some
      { id := session.id
        requesterUsername := session.requesterUsername.getD "Username"
        requesterAvatarIconUri := session.requesterAvatarIconUri
        responderUsername := session.responderUsername.getD "Response"
        responderAvatarIconUri :=
          match session.responderAvatarIconUri with
          | some uri => some uri
          | none => registrationIcon
        disposeReleasesSession := session.id }

/-! ## Hover controller (`ModesHoverController`)

The controller's own fields (`_isMouseDown`, `_hoverClicked`,
`_isHoverEnabled`, `_isHoverSticky`, `_contentWidget`, `_glyphWidget`) form
`HoverState`; the lazily created widgets are `Option`s whose payload records
visibility. Results of queries the controller makes on collaborators that are
outside this excerpt — `ContentHoverController.isColorPickerVisible`,
`isVisibleFromKeyboard` and `maybeShowAt`, the static
`InlineSuggestionHintsContentWidget.dropDownVisible` flag, and the browser
selection — are environment inputs (`HoverEnv`) read by one event step. -/

/-- The `MouseTargetType` enum values the controller compares against,
plus a stand-in for every other value. -/
inductive TargetType where
  | contentWidget
  | overlayWidget
  | gutterGlyphMargin
  | contentText
  | unknownTarget
deriving DecidableEq

/-- The fields of `mouseEvent.target` the controller reads: its `type`, its
`detail` (widget id), and its `position` (here: whether one is present, and
its line number). -/
structure MouseTarget where
  type : TargetType
  detail : String
  hasPosition : Bool
  positionLine : Nat
deriving DecidableEq

/-- Modelled from the spec: `ContentHoverWidget.ID`, declared in
`contentHover.ts` which is outside this excerpt — an identifying string
compared against `target.detail`. -/
def contentHoverWidgetID : String := "content.hover.widget"

/-- Modelled from the spec: `MarginHoverWidget.ID`, declared in
`marginHover.ts` which is outside this excerpt — an identifying string
compared against `target.detail`. -/
def marginHoverWidgetID : String := "margin.hover.widget"

/-- A lazily created hover widget; the embedding tracks its visibility. -/
structure HoverWidget where
  visible : Bool
deriving DecidableEq

/-- The mutable fields of `ModesHoverController`. -/
structure HoverState where
  isMouseDown : Bool
  hoverClicked : Bool
  isHoverEnabled : Bool
  isHoverSticky : Bool
  contentWidget : Option HoverWidget
  glyphWidget : Option HoverWidget
deriving DecidableEq

/-- Results of the external queries a single event handler run performs. -/
structure HoverEnv where
  colorPickerVisible : Bool
  visibleFromKeyboard : Bool
  dropDownVisible : Bool
  selectionCollapsed : Bool
  maybeShowAtSucceeds : Bool
deriving DecidableEq

/-- Whether the content hover widget is showing (`false` when never created). -/
def contentVisible (st : HoverState) : Bool :=
  (st.contentWidget.map (fun w => w.visible)).getD false

/-- Whether the margin (glyph) hover widget is showing. -/
def glyphVisible (st : HoverState) : Bool :=
  (st.glyphWidget.map (fun w => w.visible)).getD false

/-- Query `this._contentWidget?.isColorPickerVisible()`: `undefined` (hence falsy)
when the widget was never created. -/
def colorPickerIsVisible (st : HoverState) (env : HoverEnv) : Bool :=
  st.contentWidget.isSome && env.colorPickerVisible

/-- Query `this._contentWidget?.isVisibleFromKeyboard()`. -/
def visibleFromKeyboardQuery (st : HoverState) (env : HoverEnv) : Bool :=
  st.contentWidget.isSome && env.visibleFromKeyboard

/-- Handler `_hideWidgets()`: suppressed while the color picker is open under a
clicked hover with the button down, or while the inline-suggestion hints
dropdown is open; otherwise clears `_hoverClicked` and hides both widgets. -/
def hideWidgets (st : HoverState) (env : HoverEnv) : HoverState :=
  if (st.isMouseDown && st.hoverClicked && colorPickerIsVisible st env)
      || env.dropDownVisible then
    st
  else
    { st with
      hoverClicked := false
      glyphWidget := st.glyphWidget.map (fun w => { w with visible := false })
      contentWidget := st.contentWidget.map (fun w => { w with visible := false }) }

/-- Handler `_onEditorMouseDown(mouseEvent)`. -/
def onEditorMouseDown (st : HoverState) (env : HoverEnv) (target : MouseTarget) :
    HoverState :=
  let st := { st with isMouseDown := true }
  if target.type = TargetType.contentWidget ∧ target.detail = contentHoverWidgetID then
    { st with hoverClicked := true }
  else if target.type = TargetType.overlayWidget ∧ target.detail = marginHoverWidgetID then
    st
  else
    let st :=
      if target.type ≠ TargetType.overlayWidget then
        { st with hoverClicked := false }
      else st
    hideWidgets st env

/-- Handler `_onEditorMouseUp(mouseEvent)`. -/
def onEditorMouseUp (st : HoverState) : HoverState :=
  { st with isMouseDown := false }

/-- Handler `_onEditorMouseMove(mouseEvent)`: the guard cascade, then
`_getOrCreateContentWidget().maybeShowAt`, the gutter branch, and the final
`_hideWidgets()`. -/
def onEditorMouseMove (st : HoverState) (env : HoverEnv) (target : MouseTarget) :
    HoverState :=
  if st.isMouseDown ∧ st.hoverClicked then
    st
  else if st.isHoverSticky ∧ target.type = TargetType.contentWidget
      ∧ target.detail = contentHoverWidgetID then
    st
  else if st.isHoverSticky ∧ ¬ env.selectionCollapsed then
    st
  else if (¬ st.isHoverSticky) ∧ target.type = TargetType.contentWidget
      ∧ target.detail = contentHoverWidgetID
      ∧ colorPickerIsVisible st env then
    st
  else if st.isHoverSticky ∧ target.type = TargetType.overlayWidget
      ∧ target.detail = marginHoverWidgetID then
    st
  else if st.isHoverSticky ∧ visibleFromKeyboardQuery st env then
    st
  else if ¬ st.isHoverEnabled then
    hideWidgets st env
  else
    let contentWidget := st.contentWidget.getD { visible := false }
    if env.maybeShowAtSucceeds then
      { st with
        contentWidget := some { contentWidget with visible := true }
        glyphWidget := st.glyphWidget.map (fun w => { w with visible := false }) }
    else
      let st := { st with contentWidget := some contentWidget }
      if target.type = TargetType.gutterGlyphMargin ∧ target.hasPosition then
        { st with
          contentWidget := st.contentWidget.map (fun w => { w with visible := false })
          glyphWidget := some { visible := true } }
      else
        hideWidgets st env

/-! ## Screencast overlay scalar settings (`ToggleScreencastModeAction`) -/

/-- Modelled from the spec: `clamp` from `vs/base/common/numbers` is outside
this excerpt; settings are "clamped" into a range, i.e. taken to the nearest
point of `[lo, hi]`. -/
def clamp (value lo hi : Int) : Int := min (max value lo) hi

/-- JavaScript `configurationService.getValue<number>(key) || d`: an absent
setting (`undefined`) and the falsy number `0` both fall back to `d`. -/
def configOr (value : Option Int) (d : Int) : Int :=
  match value with
  | none => d
  | some v => if v = 0 then d else v

/-- Setting `clamp(getValue('screencastMode.mouseIndicatorSize') || 20, 20, 100)`. -/
def mouseIndicatorSizeSetting (value : Option Int) : Int :=
  clamp (configOr value 20) 20 100

/-- Setting `clamp(getValue('screencastMode.fontSize') || 56, 20, 100)`. -/
def fontSizeSetting (value : Option Int) : Int :=
  clamp (configOr value 56) 20 100

/-- Setting `clamp(getValue('screencastMode.verticalOffset') || 0, 0, 90)`. -/
def verticalOffsetSetting (value : Option Int) : Int :=
  clamp (configOr value 0) 0 90

/-- Setting `clamp(getValue('screencastMode.keyboardOverlayTimeout') || 800, 500, 5000)`. -/
def keyboardOverlayTimeoutSetting (value : Option Int) : Int :=
  clamp (configOr value 800) 500 5000

/-! ## Claims about the interactive-session bridge -/

/-- C1: for every registered (handle, session) pair, after `provideReply`
settles — whether the remote call resolved or rejected — the active-request
progress-callback map no longer contains the composite key for that pair. -/
theorem provideReply_settles_removes_callback (st : BridgeState)
    (handle sessionId : Nat) (outcome : RemoteReplyOutcome)
    (hreg : st.activeRequestProgressCallbacks.contains
      (requestKey handle sessionId) = true) :
    (provideReplySettle st handle sessionId outcome).2.activeRequestProgressCallbacks.contains
      (requestKey handle sessionId) = false := by
  cases outcome <;>
    simp [provideReplySettle, JsMap.contains_delete_self]

/-- Closed instance of `provideReply_settles_removes_callback`: handle 2,
session 7, callback 5, on both a resolved and a rejected outcome. -/
theorem provideReply_settles_removes_callback_witness :
    ((provideReplyStart ⟨JsMap.empty, JsMap.empty⟩ 2 7 5).activeRequestProgressCallbacks.contains
      (requestKey 2 7) = true) ∧
    ((provideReplySettle (provideReplyStart ⟨JsMap.empty, JsMap.empty⟩ 2 7 5) 2 7
      (RemoteReplyOutcome.resolved "dto")).2.activeRequestProgressCallbacks.contains
      (requestKey 2 7) = false) ∧
    ((provideReplySettle (provideReplyStart ⟨JsMap.empty, JsMap.empty⟩ 2 7 5) 2 7
      (RemoteReplyOutcome.rejected "boom")).2.activeRequestProgressCallbacks.contains
      (requestKey 2 7) = false) :=
  ⟨by decide,
   provideReply_settles_removes_callback _ 2 7 _ (by decide),
   provideReply_settles_removes_callback _ 2 7 _ (by decide)⟩

/-- C2: registering a provider whose id is not in the static contribution
list throws, issues no remote call, and leaves the bridge state (both maps)
unchanged. -/
theorem register_undeclared_provider_fails (contribs : List Contribution)
    (st : BridgeState) (handle : Nat) (id : String) (implementsProgress : Bool)
    (habs : ∀ c ∈ contribs, c.id ≠ id) :
    (registerInteractiveSessionProvider contribs st handle id implementsProgress).result
      = Except.error ("Provider " ++ id ++ " must be declared in the package.json.") ∧
    (registerInteractiveSessionProvider contribs st handle id implementsProgress).remoteCalls
      = [] := by
  have hnone : contribs.find? (fun staticProvider => staticProvider.id = id) = none := by
    rw [List.find?_eq_none]
    intro c hc
    simp [habs c hc]
  simp [registerInteractiveSessionProvider, hnone]

/-- Closed instance of `register_undeclared_provider_fails`: id "nope"
against a contribution list declaring only "p1". -/
theorem register_undeclared_provider_fails_witness :
    (registerInteractiveSessionProvider [⟨"p1", none⟩] ⟨JsMap.empty, JsMap.empty⟩ 1 "nope" true).result
      = Except.error ("Provider " ++ "nope" ++ " must be declared in the package.json.") ∧
    (registerInteractiveSessionProvider [⟨"p1", none⟩] ⟨JsMap.empty, JsMap.empty⟩ 1 "nope" true).remoteCalls
      = [] :=
  register_undeclared_provider_fails [⟨"p1", none⟩] ⟨JsMap.empty, JsMap.empty⟩ 1 "nope" true
    (by decide)

/-- C3: delivering progress for a (handle, session) pair with no in-flight
`provideReply` performs no callback invocation and leaves the whole bridge
state unchanged (and, being a total function, cannot throw). -/
theorem acceptProgress_unregistered_noop (st : BridgeState)
    (handle sessionId : Nat) (progress : IInteractiveProgress)
    (habs : st.activeRequestProgressCallbacks.get (requestKey handle sessionId) = none) :
    acceptInteractiveResponseProgress st handle sessionId progress = (st, []) := by
  simp [acceptInteractiveResponseProgress, habs]

/-- Closed instance of `acceptProgress_unregistered_noop`: empty bridge state,
handle 1, session 42. -/
theorem acceptProgress_unregistered_noop_witness :
    acceptInteractiveResponseProgress ⟨JsMap.empty, JsMap.empty⟩ 1 42 ⟨"hi"⟩
      = (⟨JsMap.empty, JsMap.empty⟩, []) :=
  acceptProgress_unregistered_noop ⟨JsMap.empty, JsMap.empty⟩ 1 42 ⟨"hi"⟩ (by decide)

/-- C4: while a `provideReply` for (handle, session) has registered callback
`cb` and not yet settled, a single progress delivery for that pair invokes
`cb` exactly once, with exactly the delivered payload, changing no state. -/
theorem acceptProgress_invokes_registered_callback_once (st : BridgeState)
    (handle sessionId cb : Nat) (progress : IInteractiveProgress)
    (hreg : st.activeRequestProgressCallbacks.get (requestKey handle sessionId) = some cb) :
    acceptInteractiveResponseProgress st handle sessionId progress
      = (st, [(cb, progress)]) := by
  simp [acceptInteractiveResponseProgress, hreg]

/-- Closed instance of
`acceptProgress_invokes_registered_callback_once`: handle 2, session 7,
payload "hi", callback 5 registered by `provideReplyStart`. -/
theorem acceptProgress_invokes_registered_callback_once_witness :
    acceptInteractiveResponseProgress (provideReplyStart ⟨JsMap.empty, JsMap.empty⟩ 2 7 5)
      2 7 ⟨"hi"⟩
      = (provideReplyStart ⟨JsMap.empty, JsMap.empty⟩ 2 7 5, [(5, ⟨"hi"⟩)]) :=
  acceptProgress_invokes_registered_callback_once _ 2 7 5 ⟨"hi"⟩ (by decide)

/-- C5: `prepareSession` yields no session when the remote returns nothing;
otherwise the wrapped session keeps a remote-supplied requester/responder
username, defaults a missing one to "Username" resp. "Response", and its
dispose hook releases the remote session by its id. -/
theorem prepareSession_spec :
    (∀ icon, prepareSession icon none = none) ∧
    (∀ icon s, ∃ w, prepareSession icon (some s) = some w ∧
      w.id = s.id ∧
      w.disposeReleasesSession = s.id ∧
      (∀ u, s.requesterUsername = some u → w.requesterUsername = u) ∧
      (s.requesterUsername = none → w.requesterUsername = "Username") ∧
      (∀ u, s.responderUsername = some u → w.responderUsername = u) ∧
      (s.responderUsername = none → w.responderUsername = "Response")) := by
  constructor
  · intro icon
    rfl
  · intro icon s
    refine ⟨_, rfl, rfl, rfl, ?_, ?_, ?_, ?_⟩
    · intro u hu
      simp [hu]
    · intro hu
      simp [hu]
    · intro u hu
      simp [hu]
    · intro hu
      simp [hu]

/-- Closed instance of `prepareSession_spec`: a declined remote, and a remote
session with id 3, no requester username, responder username "Bob". -/
theorem prepareSession_spec_witness :
    prepareSession (some "icon") none = none ∧
    ∃ w, prepareSession (some "icon") (some ⟨3, none, none, some "Bob", none⟩) = some w ∧
      w.requesterUsername = "Username" ∧
      w.responderUsername = "Bob" ∧
      w.disposeReleasesSession = 3 := by
  obtain ⟨h1, h2⟩ := prepareSession_spec
  obtain ⟨w, hw, _, hdisp, _, hreqd, hresp, _⟩ :=
    h2 (some "icon") ⟨3, none, none, some "Bob", none⟩
  exact ⟨h1 (some "icon"), w, hw, hreqd rfl, hresp "Bob" rfl, hdisp⟩

/-- C10: unregistering a provider leaves the progress-callback map untouched:
an in-flight reply's callback for (handle, session) survives
`$unregisterInteractiveSessionProvider(handle)`, and a subsequent progress
delivery still invokes it. -/
theorem unregister_preserves_progress_callbacks (st : BridgeState)
    (handle sessionId cb : Nat) (progress : IInteractiveProgress)
    (hreg : st.activeRequestProgressCallbacks.get (requestKey handle sessionId) = some cb) :
    (unregisterInteractiveSessionProvider st handle).activeRequestProgressCallbacks
      = st.activeRequestProgressCallbacks ∧
    (unregisterInteractiveSessionProvider st handle).activeRequestProgressCallbacks.get
      (requestKey handle sessionId) = some cb ∧
    (acceptInteractiveResponseProgress (unregisterInteractiveSessionProvider st handle)
      handle sessionId progress).2 = [(cb, progress)] := by
  refine ⟨rfl, hreg, ?_⟩
  simp [acceptInteractiveResponseProgress, unregisterInteractiveSessionProvider, hreg]

/-- Closed instance of `unregister_preserves_progress_callbacks`: handle 1,
session 42, callback 9 registered, then handle 1 unregistered. -/
theorem unregister_preserves_progress_callbacks_witness :
    (acceptInteractiveResponseProgress
      (unregisterInteractiveSessionProvider
        (provideReplyStart ⟨JsMap.empty, JsMap.empty⟩ 1 42 9) 1)
      1 42 ⟨"part"⟩).2 = [(9, ⟨"part"⟩)] :=
  (unregister_preserves_progress_callbacks _ 1 42 9 ⟨"part"⟩ (by decide)).2.2

/-! ## Claims about the hover controller -/

/-- C6: in sticky mode with the content hover widget visible, a mouse move
whose target is the content hover widget hides nothing and leaves the
controller state unchanged. -/
theorem mouseMove_over_content_widget_sticky_preserves (st : HoverState)
    (env : HoverEnv) (target : MouseTarget)
    (hsticky : st.isHoverSticky = true)
    (hvisible : contentVisible st = true)
    (htype : target.type = TargetType.contentWidget)
    (hdetail : target.detail = contentHoverWidgetID) :
    onEditorMouseMove st env target = st := by
  unfold onEditorMouseMove
  by_cases hdown : (st.isMouseDown : Prop) ∧ (st.hoverClicked : Prop)
  · rw [if_pos hdown]
  · rw [if_neg hdown, if_pos ⟨hsticky, htype, hdetail⟩]

/-- Closed instance of `mouseMove_over_content_widget_sticky_preserves`:
sticky controller with a visible content widget, move over that widget. -/
theorem mouseMove_over_content_widget_sticky_preserves_witness :
    contentVisible ⟨false, false, true, true, some ⟨true⟩, none⟩ = true ∧
    onEditorMouseMove ⟨false, false, true, true, some ⟨true⟩, none⟩
      ⟨false, false, false, true, false⟩
      ⟨TargetType.contentWidget, contentHoverWidgetID, false, 0⟩
      = ⟨false, false, true, true, some ⟨true⟩, none⟩ :=
  ⟨by decide,
   mouseMove_over_content_widget_sticky_preserves _ _ _ rfl (by decide) rfl rfl⟩

/-- C8: `_hideWidgets` is a no-op exactly when the mouse is down on a clicked
hover whose color picker is showing, or the inline-suggestion dropdown is
showing; in every other state it clears `_hoverClicked`, hides both widgets,
and touches nothing else. -/
theorem hideWidgets_spec (st : HoverState) (env : HoverEnv) :
    (((st.isMouseDown && st.hoverClicked && colorPickerIsVisible st env)
        || env.dropDownVisible) = true →
      hideWidgets st env = st) ∧
    (((st.isMouseDown && st.hoverClicked && colorPickerIsVisible st env)
        || env.dropDownVisible) = false →
      (hideWidgets st env).hoverClicked = false ∧
      contentVisible (hideWidgets st env) = false ∧
      glyphVisible (hideWidgets st env) = false ∧
      (hideWidgets st env).isMouseDown = st.isMouseDown ∧
      (hideWidgets st env).isHoverEnabled = st.isHoverEnabled ∧
      (hideWidgets st env).isHoverSticky = st.isHoverSticky) := by
  constructor
  · intro h
    simp only [hideWidgets, h, if_pos]
  · intro h
    simp only [hideWidgets, h, Bool.false_eq_true, if_false, contentVisible, glyphVisible]
    cases st.contentWidget <;> cases st.glyphWidget <;> simp

/-- Closed instances of `hideWidgets_spec`: suppression under a visible
inline-suggestion dropdown, and a full hide otherwise. -/
theorem hideWidgets_spec_witness :
    hideWidgets ⟨false, false, true, false, some ⟨true⟩, none⟩
      ⟨false, false, true, true, false⟩
      = ⟨false, false, true, false, some ⟨true⟩, none⟩ ∧
    contentVisible (hideWidgets ⟨false, true, true, false, some ⟨true⟩, some ⟨true⟩⟩
      ⟨false, false, false, true, false⟩) = false ∧
    glyphVisible (hideWidgets ⟨false, true, true, false, some ⟨true⟩, some ⟨true⟩⟩
      ⟨false, false, false, true, false⟩) = false ∧
    (hideWidgets ⟨false, true, true, false, some ⟨true⟩, some ⟨true⟩⟩
      ⟨false, false, false, true, false⟩).hoverClicked = false :=
  ⟨(hideWidgets_spec _ _).1 (by decide),
   ((hideWidgets_spec _ _).2 (by decide)).2.1,
   ((hideWidgets_spec _ _).2 (by decide)).2.2.1,
   ((hideWidgets_spec _ _).2 (by decide)).1⟩

/-- Helper: when `_hoverClicked` is clear and the inline-suggestion dropdown
is not showing, `_hideWidgets` actually hides. -/
theorem hideWidgets_result_hidden (st : HoverState) (env : HoverEnv)
    (hclick : st.hoverClicked = false)
    (hdrop : env.dropDownVisible = false) :
    (hideWidgets st env).hoverClicked = false ∧
    contentVisible (hideWidgets st env) = false ∧
    glyphVisible (hideWidgets st env) = false ∧
    (hideWidgets st env).isMouseDown = st.isMouseDown := by
  have hcond : ((st.isMouseDown && st.hoverClicked && colorPickerIsVisible st env)
      || env.dropDownVisible) = false := by
    simp [hclick, hdrop]
  simp only [hideWidgets, hcond, Bool.false_eq_true, if_false, contentVisible, glyphVisible]
  cases st.contentWidget <;> cases st.glyphWidget <;> simp

/-- Helper: a mouse-down whose target is neither the content hover widget nor
any overlay widget clears `_hoverClicked` and (dropdown closed) hides both
widgets. -/
theorem onEditorMouseDown_outside_hides (st : HoverState) (env : HoverEnv)
    (t : MouseTarget)
    (h1 : ¬(t.type = TargetType.contentWidget ∧ t.detail = contentHoverWidgetID))
    (h2 : t.type ≠ TargetType.overlayWidget)
    (hdrop : env.dropDownVisible = false) :
    (onEditorMouseDown st env t).hoverClicked = false ∧
    contentVisible (onEditorMouseDown st env t) = false ∧
    glyphVisible (onEditorMouseDown st env t) = false := by
  unfold onEditorMouseDown
  rw [if_neg h1, if_neg (fun hc => h2 hc.1), if_pos h2]
  obtain ⟨ha, hb, hc, -⟩ := hideWidgets_result_hidden
    { st with isMouseDown := true, hoverClicked := false } env rfl hdrop
  exact ⟨ha, hb, hc⟩

/-- Helper: a mouse-move over a target that the content widget declines
(`maybeShowAt` false) and that is not a gutter glyph-margin position keeps
both widgets hidden, provided `_hoverClicked` is clear and the dropdown is
closed. -/
theorem onEditorMouseMove_keeps_hidden (st : HoverState) (env : HoverEnv)
    (t : MouseTarget)
    (hclick : st.hoverClicked = false)
    (hcontent : contentVisible st = false)
    (hglyph : glyphVisible st = false)
    (hdrop : env.dropDownVisible = false)
    (hshow : env.maybeShowAtSucceeds = false)
    (hgut : ¬(t.type = TargetType.gutterGlyphMargin ∧ t.hasPosition = true)) :
    contentVisible (onEditorMouseMove st env t) = false ∧
    glyphVisible (onEditorMouseMove st env t) = false := by
  unfold onEditorMouseMove
  by_cases h1 : (st.isMouseDown : Prop) ∧ (st.hoverClicked : Prop)
  · rw [if_pos h1]
    exact ⟨hcontent, hglyph⟩
  rw [if_neg h1]
  by_cases h2 : (st.isHoverSticky : Prop) ∧ t.type = TargetType.contentWidget
      ∧ t.detail = contentHoverWidgetID
  · rw [if_pos h2]
    exact ⟨hcontent, hglyph⟩
  rw [if_neg h2]
  by_cases h3 : (st.isHoverSticky : Prop) ∧ ¬(env.selectionCollapsed : Prop)
  · rw [if_pos h3]
    exact ⟨hcontent, hglyph⟩
  rw [if_neg h3]
  by_cases h4 : (¬(st.isHoverSticky : Prop)) ∧ t.type = TargetType.contentWidget
      ∧ t.detail = contentHoverWidgetID ∧ (colorPickerIsVisible st env : Prop)
  · rw [if_pos h4]
    exact ⟨hcontent, hglyph⟩
  rw [if_neg h4]
  by_cases h5 : (st.isHoverSticky : Prop) ∧ t.type = TargetType.overlayWidget
      ∧ t.detail = marginHoverWidgetID
  · rw [if_pos h5]
    exact ⟨hcontent, hglyph⟩
  rw [if_neg h5]
  by_cases h6 : (st.isHoverSticky : Prop) ∧ (visibleFromKeyboardQuery st env : Prop)
  · rw [if_pos h6]
    exact ⟨hcontent, hglyph⟩
  rw [if_neg h6]
  by_cases h7 : ¬(st.isHoverEnabled : Prop)
  · rw [if_pos h7]
    obtain ⟨-, hb, hc, -⟩ := hideWidgets_result_hidden st env hclick hdrop
    exact ⟨hb, hc⟩
  rw [if_neg h7]
  simp only [hshow, Bool.false_eq_true, if_false]
  rw [if_neg hgut]
  obtain ⟨-, hb, hc, -⟩ := hideWidgets_result_hidden
    { st with contentWidget := some (st.contentWidget.getD { visible := false }) }
    env hclick hdrop
  exact ⟨hb, hc⟩

/-- C7 fails as stated: with the inline-suggestion dropdown visible, a
mouse-down outside both hover widgets followed by a mouse-move over a
non-hoverable, non-gutter target leaves a visible content widget visible —
every hide is suppressed by the dropdown guard. -/
theorem mouseDown_then_move_counterexample :
    (¬((MouseTarget.mk TargetType.contentText "" false 0).type = TargetType.contentWidget
        ∧ (MouseTarget.mk TargetType.contentText "" false 0).detail = contentHoverWidgetID)) ∧
    (¬((MouseTarget.mk TargetType.contentText "" false 0).type = TargetType.overlayWidget
        ∧ (MouseTarget.mk TargetType.contentText "" false 0).detail = marginHoverWidgetID)) ∧
    (HoverEnv.mk false false true true false).maybeShowAtSucceeds = false ∧
    (¬((MouseTarget.mk TargetType.contentText "" false 0).type = TargetType.gutterGlyphMargin
        ∧ (MouseTarget.mk TargetType.contentText "" false 0).hasPosition = true)) ∧
    contentVisible
      (onEditorMouseMove
        (onEditorMouseDown
          (HoverState.mk false false true false (some (HoverWidget.mk true)) none)
          (HoverEnv.mk false false true true false)
          (MouseTarget.mk TargetType.contentText "" false 0))
        (HoverEnv.mk false false true true false)
        (MouseTarget.mk TargetType.contentText "" false 0)) = true := by
  decide

/-- C7 amended: provided the inline-suggestion dropdown is not visible and
the mouse-down target is not an overlay widget, a mouse-down outside both
hover widgets immediately followed by a mouse-move over a target that is
neither hoverable content nor a gutter glyph-margin position leaves both
widgets hidden. -/
theorem mouseDown_then_move_hides_both (st : HoverState) (env : HoverEnv)
    (t1 t2 : MouseTarget)
    (hout : ¬(t1.type = TargetType.contentWidget ∧ t1.detail = contentHoverWidgetID))
    (hnotOverlay : t1.type ≠ TargetType.overlayWidget)
    (hdrop : env.dropDownVisible = false)
    (hshow : env.maybeShowAtSucceeds = false)
    (hgut : ¬(t2.type = TargetType.gutterGlyphMargin ∧ t2.hasPosition = true)) :
    contentVisible (onEditorMouseMove (onEditorMouseDown st env t1) env t2) = false ∧
    glyphVisible (onEditorMouseMove (onEditorMouseDown st env t1) env t2) = false := by
  obtain ⟨ha, hb, hc⟩ := onEditorMouseDown_outside_hides st env t1 hout hnotOverlay hdrop
  exact onEditorMouseMove_keeps_hidden _ env t2 ha hb hc hdrop hshow hgut

/-- Closed instance of `mouseDown_then_move_hides_both`: both widgets visible
before the mouse-down, dropdown closed, plain-text targets. -/
theorem mouseDown_then_move_hides_both_witness :
    contentVisible
      (onEditorMouseMove
        (onEditorMouseDown
          (HoverState.mk false true true true (some (HoverWidget.mk true)) (some (HoverWidget.mk true)))
          (HoverEnv.mk false false false true false)
          (MouseTarget.mk TargetType.contentText "" false 0))
        (HoverEnv.mk false false false true false)
        (MouseTarget.mk TargetType.unknownTarget "" false 0)) = false ∧
    glyphVisible
      (onEditorMouseMove
        (onEditorMouseDown
          (HoverState.mk false true true true (some (HoverWidget.mk true)) (some (HoverWidget.mk true)))
          (HoverEnv.mk false false false true false)
          (MouseTarget.mk TargetType.contentText "" false 0))
        (HoverEnv.mk false false false true false)
        (MouseTarget.mk TargetType.unknownTarget "" false 0)) = false :=
  mouseDown_then_move_hides_both _ _ _ _ (by decide) (by decide) rfl rfl (by decide)

/-! ## Claim about the screencast overlay settings -/

/-- C9: each scalar screencast setting falls back to its default when the
configuration yields nothing, and every supplied value is clamped into the
fixed range — [20, 100] for the mouse indicator size (default 20), [20, 100]
for the font size (default 56), [0, 90] for the vertical offset (default 0),
and [500, 5000] for the keyboard overlay timeout (default 800). -/
theorem screencast_settings_defaulted_and_clamped (v : Int) :
    mouseIndicatorSizeSetting none = 20 ∧
    20 ≤ mouseIndicatorSizeSetting (some v) ∧ mouseIndicatorSizeSetting (some v) ≤ 100 ∧
    mouseIndicatorSizeSetting (some 150) = 100 ∧ mouseIndicatorSizeSetting (some 7) = 20 ∧
    fontSizeSetting none = 56 ∧
    20 ≤ fontSizeSetting (some v) ∧ fontSizeSetting (some v) ≤ 100 ∧
    fontSizeSetting (some 101) = 100 ∧ fontSizeSetting (some 19) = 20 ∧
    verticalOffsetSetting none = 0 ∧
    0 ≤ verticalOffsetSetting (some v) ∧ verticalOffsetSetting (some v) ≤ 90 ∧
    verticalOffsetSetting (some 95) = 90 ∧ verticalOffsetSetting (some (-3)) = 0 ∧
    keyboardOverlayTimeoutSetting none = 800 ∧
    500 ≤ keyboardOverlayTimeoutSetting (some v) ∧ keyboardOverlayTimeoutSetting (some v) ≤ 5000 ∧
    keyboardOverlayTimeoutSetting (some 9999) = 5000 ∧ keyboardOverlayTimeoutSetting (some 1) = 500 := by
  unfold mouseIndicatorSizeSetting fontSizeSetting verticalOffsetSetting
    keyboardOverlayTimeoutSetting clamp configOr
  refine ⟨by norm_num, ?_, ?_, by norm_num, by norm_num,
          by norm_num, ?_, ?_, by norm_num, by norm_num,
          by norm_num, ?_, ?_, by norm_num, by norm_num,
          by norm_num, ?_, ?_, by norm_num, by norm_num⟩ <;>
    rcases eq_or_ne v 0 with h | h <;> simp [h] <;> omega
